import Mathlib

/-!
Shallow embedding of the Habitat Layout Creator core
(`src/scripts/modules.js`, the `ResourceCalculator`, and the
`HabitatDesigner` state machine), together with theorems settling the
frozen claims about its specification.

Numbers: the source is JavaScript, whose numeric values here are small
decimal constants and coordinates; they are embedded as exact rationals
(`ℚ`), with module ids as `ℕ`.  Where the double rounding of JavaScript
numbers is itself at issue — the additivity of the `totalArea`
accumulation — the binary64 arithmetic is modeled explicitly (`F64`,
`f64Add`, `totalAreaF64`).
-/

/-- Width and height of a module, from the catalog `dimensions` entries. -/
structure Dimensions where
  width : ℚ
  height : ℚ
deriving DecidableEq, Repr

/-- One entry of `HabitatModules.moduleTypes`.  `powerGeneration` is an
`Option` because only the `power` module declares that field in the source;
the aggregator reads every field through `|| 0`, which turns the absent
field into `0`. -/
structure ModuleProfile where
  name : String
  icon : String
  dimensions : Dimensions
  powerConsumption : ℚ
  powerGeneration : Option ℚ
  oxygenProduction : ℚ
  oxygenConsumption : ℚ
  crewCapacity : ℚ
  area : ℚ
  description : String
  color : String
  requirements : List String
deriving DecidableEq, Repr

/-- Catalog entry for living quarters. -/
def livingQuartersProfile : ModuleProfile :=
  { name := "Living Quarters", icon := "🏠"
    dimensions := { width := 120, height := 100 }
    powerConsumption := 15, powerGeneration := none
    oxygenProduction := 0, oxygenConsumption := 5
    crewCapacity := 4, area := 12
    description := "Sleeping quarters and personal space for crew members"
    color := "#2ecc71", requirements := ["power", "life-support"] }

/-- Catalog entry for the laboratory. -/
def laboratoryProfile : ModuleProfile :=
  { name := "Laboratory", icon := "🔬"
    dimensions := { width := 140, height := 120 }
    powerConsumption := 25, powerGeneration := none
    oxygenProduction := 0, oxygenConsumption := 3
    crewCapacity := 2, area := 16.8
    description := "Research and scientific experimentation facility"
    color := "#9b59b6", requirements := ["power", "data-link"] }

/-- Catalog entry for the greenhouse. -/
def greenhouseProfile : ModuleProfile :=
  { name := "Greenhouse", icon := "🌱"
    dimensions := { width := 160, height := 140 }
    powerConsumption := 30, powerGeneration := none
    oxygenProduction := 15, oxygenConsumption := 2
    crewCapacity := 1, area := 22.4
    description := "Food production and oxygen generation facility"
    color := "#27ae60", requirements := ["power", "water", "co2"] }

/-- Catalog entry for the workshop. -/
def workshopProfile : ModuleProfile :=
  { name := "Workshop", icon := "🔧"
    dimensions := { width := 130, height := 110 }
    powerConsumption := 20, powerGeneration := none
    oxygenProduction := 0, oxygenConsumption := 4
    crewCapacity := 2, area := 14.3
    description := "Manufacturing and repair facility"
    color := "#e67e22", requirements := ["power", "raw-materials"] }

/-- Catalog entry for recreation. -/
def recreationProfile : ModuleProfile :=
  { name := "Recreation", icon := "🎮"
    dimensions := { width := 150, height := 130 }
    powerConsumption := 18, powerGeneration := none
    oxygenProduction := 0, oxygenConsumption := 6
    crewCapacity := 8, area := 19.5
    description := "Entertainment and social gathering space"
    color := "#3498db", requirements := ["power", "climate-control"] }

/-- Catalog entry for the airlock. -/
def airlockProfile : ModuleProfile :=
  { name := "Airlock", icon := "🚪"
    dimensions := { width := 80, height := 80 }
    powerConsumption := 10, powerGeneration := none
    oxygenProduction := 0, oxygenConsumption := 1
    crewCapacity := 2, area := 6.4
    description := "Entry/exit point for EVA operations"
    color := "#95a5a6", requirements := ["power", "pressure-control"] }

/-- Catalog entry for the power module, the only one declaring
`powerGeneration`. -/
def powerProfile : ModuleProfile :=
  { name := "Power Module", icon := "⚡"
    dimensions := { width := 100, height := 100 }
    powerConsumption := 0, powerGeneration := some 50
    oxygenProduction := 0, oxygenConsumption := 0
    crewCapacity := 0, area := 10
    description := "Solar panels and power generation system"
    color := "#f1c40f", requirements := [] }

/-- Catalog entry for storage. -/
def storageProfile : ModuleProfile :=
  { name := "Storage", icon := "📦"
    dimensions := { width := 110, height := 90 }
    powerConsumption := 5, powerGeneration := none
    oxygenProduction := 0, oxygenConsumption := 0
    crewCapacity := 0, area := 9.9
    description := "Equipment and supply storage facility"
    color := "#8e44ad", requirements := ["climate-control"] }

/-- The static table `HabitatModules.moduleTypes`, exposed as the lookup
`HabitatModules.getModuleType` (which returns `null`, here `none`, for an
unknown id). -/
def getModuleType (moduleId : String) : Option ModuleProfile :=
  match moduleId with
  | "living-quarters" => some livingQuartersProfile
  | "laboratory" => some laboratoryProfile
  | "greenhouse" => some greenhouseProfile
  | "workshop" => some workshopProfile
  | "recreation" => some recreationProfile
  | "airlock" => some airlockProfile
  | "power" => some powerProfile
  | "storage" => some storageProfile
  | _ => none

/-- A placed module as the core functions read it: `addModule` builds
`{ id, type, x, y, ...moduleInfo }`; the spread-in profile fields are
derived from `type` and are never read by the functions modeled here, so
they are not stored (matching the `PlacedModule` data model of the
design: id, type reference, top-left coordinate). -/
structure PlacedModule where
  id : ℕ
  type : String
  x : ℚ
  y : ℚ
deriving DecidableEq, Repr

/-- A candidate position, the `{ x, y }` argument of
`validateModulePlacement`. -/
structure Position where
  x : ℚ
  y : ℚ
deriving DecidableEq, Repr

/-- The `canvasSize` argument: the surface bounds `{ width, height }`. -/
structure Size where
  width : ℚ
  height : ℚ
deriving DecidableEq, Repr

/-- An axis-aligned rectangle `{ x, y, width, height }` as passed to
`modulesOverlap`. -/
structure Rect where
  x : ℚ
  y : ℚ
  width : ℚ
  height : ℚ
deriving DecidableEq, Repr

/-- `HabitatModules.modulesOverlap`: the standard AABB test; separation on
either axis uses `<=`, so rectangles whose edges merely touch do not
overlap. -/
def modulesOverlap (module1 module2 : Rect) : Bool :=
  !(module1.x + module1.width ≤ module2.x ||
    module2.x + module2.width ≤ module1.x ||
    module1.y + module1.height ≤ module2.y ||
    module2.y + module2.height ≤ module1.y)

/-- The result object of `validateModulePlacement`:
`{ valid: true }` or `{ valid: false, reason }`. -/
inductive VResult where
  | ok : VResult
  | invalid (reason : String) : VResult
deriving DecidableEq, Repr

/-- The `for (let existingModule of existingModules)` loop of
`validateModulePlacement`.  The source reads
`this.getModuleType(existingModule.type).dimensions` without a null check,
so an existing module whose type is absent from the catalog raises a
TypeError; that uncaught fault is modeled as `none`. -/
def checkOverlaps (profile : ModuleProfile) (position : Position) :
    List PlacedModule → Option VResult
  | [] => some VResult.ok
  | existingModule :: rest =>
    match getModuleType existingModule.type with
    | none => none
    | some existingType =>
      if modulesOverlap
          { x := position.x, y := position.y
            width := profile.dimensions.width, height := profile.dimensions.height }
          { x := existingModule.x, y := existingModule.y
            width := existingType.dimensions.width, height := existingType.dimensions.height }
      then some (VResult.invalid "Module overlaps with existing module")
      else checkOverlaps profile position rest

/-- `HabitatModules.validateModulePlacement`: catalog lookup, then bounds
check, then the overlap loop.  `none` models the TypeError the overlap
loop raises when an existing module has an unknown type. -/
def validateModulePlacement (moduleType : String) (position : Position)
    (existingModules : List PlacedModule) (canvasSize : Size) : Option VResult :=
  match getModuleType moduleType with
  | none => some (VResult.invalid "Invalid module type")
  | some profile =>
    if position.x < 0 ∨ position.y < 0 ∨
        position.x + profile.dimensions.width > canvasSize.width ∨
        position.y + profile.dimensions.height > canvasSize.height
    then some (VResult.invalid "Module extends beyond habitat boundary")
    else checkOverlaps profile position existingModules

/-- The running totals of `calculateTotalResources` (the six `let total...`
accumulators). -/
structure ResAcc where
  powerConsumption : ℚ
  powerGeneration : ℚ
  oxygenProduction : ℚ
  oxygenConsumption : ℚ
  crewCapacity : ℚ
  area : ℚ
deriving DecidableEq, Repr

/-- One step of the `modules.forEach` accumulation loop in
`calculateTotalResources`: a module whose type resolves adds its profile
fields (each read through `|| 0`); a module with an unknown type leaves
every accumulator unchanged.  The additions are embedded in exact
rational arithmetic; the source adds binary64 doubles, which coincides
with this for the five integer-valued fields but rounds sums of the
non-representable `area` literals — that deviation is modeled separately
by `totalAreaF64`. -/
def resStep (acc : ResAcc) (m : PlacedModule) : ResAcc :=
  match getModuleType m.type with
  | none => acc
  | some moduleType =>
    { powerConsumption := acc.powerConsumption + moduleType.powerConsumption
      powerGeneration := acc.powerGeneration + moduleType.powerGeneration.getD 0
      oxygenProduction := acc.oxygenProduction + moduleType.oxygenProduction
      oxygenConsumption := acc.oxygenConsumption + moduleType.oxygenConsumption
      crewCapacity := acc.crewCapacity + moduleType.crewCapacity
      area := acc.area + moduleType.area }

/-- The object returned by `HabitatModules.calculateTotalResources`.
`moduleTypes` is an `Option` because `calculateTotalResources` does not set
that property; `ResourceCalculator.updateResources` attaches it afterwards,
and `getSafetyAlerts` reads it through `|| []`. -/
structure Resources where
  powerBalance : ℚ
  oxygenBalance : ℚ
  crewCapacity : ℚ
  totalArea : ℚ
  modules : ℕ
  powerConsumption : ℚ
  powerGeneration : ℚ
  oxygenProduction : ℚ
  oxygenConsumption : ℚ
  moduleTypes : Option (List String)
deriving DecidableEq, Repr

/-- `HabitatModules.calculateTotalResources`: the single forEach pass over
the module list followed by assembly of the result object. -/
def calculateTotalResources (modules : List PlacedModule) : Resources :=
  let t := modules.foldl resStep
    { powerConsumption := 0, powerGeneration := 0, oxygenProduction := 0
      oxygenConsumption := 0, crewCapacity := 0, area := 0 }
  { powerBalance := t.powerGeneration - t.powerConsumption
    oxygenBalance := t.oxygenProduction - t.oxygenConsumption
    crewCapacity := t.crewCapacity
    totalArea := t.area
    modules := modules.length
    powerConsumption := t.powerConsumption
    powerGeneration := t.powerGeneration
    oxygenProduction := t.oxygenProduction
    oxygenConsumption := t.oxygenConsumption
    moduleTypes := none }

/-- The snapshot `ResourceCalculator.updateResources` works with: the
totals from `calculateTotalResources` with
`resources.moduleTypes = modules.map(m => m.type)` attached for safety
checking.  The display updates it also performs are presentation only. -/
def updateResources (modules : List PlacedModule) : Resources :=
  let resources := calculateTotalResources modules
  { resources with moduleTypes := some (modules.map (fun m => m.type)) }

/-- Identity of a safety-alert message.  Each constructor stands for one of
the template literals pushed by `getSafetyAlerts`, carrying the value the
template interpolates; string formatting itself is presentation. -/
inductive AlertMsg where
  | powerDeficit (magnitude : ℚ)
  | lowPowerReserve (balance : ℚ)
  | oxygenDeficit (magnitude : ℚ)
  | lowOxygenReserve (balance : ℚ)
  | noLivingQuarters
  | limitedCrewCapacity (capacity : ℚ)
  | noAirlock
  | noPowerModules
  | allSystemsNominal
deriving DecidableEq, Repr

/-- One entry of the alert list: `{ type, message }`.  The `type` strings
used by the source are "danger", "warning" and "safe". -/
structure Alert where
  type : String
  message : AlertMsg
deriving DecidableEq, Repr

/-- The alerts pushed by the threshold and presence rules of
`HabitatModules.getSafetyAlerts`, in push order: power balance, oxygen
balance, crew capacity, airlock presence, power-module presence.  The
presence checks read `resources.moduleTypes || []`. -/
def firedAlerts (resources : Resources) : List Alert :=
  (if resources.powerBalance < 0 then
    [{ type := "danger", message := AlertMsg.powerDeficit (abs resources.powerBalance) }]
   else if resources.powerBalance < 10 then
    [{ type := "warning", message := AlertMsg.lowPowerReserve resources.powerBalance }]
   else []) ++
  (if resources.oxygenBalance < 0 then
    [{ type := "danger", message := AlertMsg.oxygenDeficit (abs resources.oxygenBalance) }]
   else if resources.oxygenBalance < 5 then
    [{ type := "warning", message := AlertMsg.lowOxygenReserve resources.oxygenBalance }]
   else []) ++
  (if resources.crewCapacity = 0 then
    [{ type := "warning", message := AlertMsg.noLivingQuarters }]
   else if resources.crewCapacity < 4 then
    [{ type := "warning", message := AlertMsg.limitedCrewCapacity resources.crewCapacity }]
   else []) ++
  (if (resources.moduleTypes.getD []).contains "airlock" then []
   else [{ type := "warning", message := AlertMsg.noAirlock }]) ++
  (if (resources.moduleTypes.getD []).contains "power" then []
   else [{ type := "danger", message := AlertMsg.noPowerModules }])

/-- `HabitatModules.getSafetyAlerts`: every applicable rule pushes its
alert; if nothing was pushed, the single nominal entry (type "safe") is
returned instead. -/
def getSafetyAlerts (resources : Resources) : List Alert :=
  let alerts := firedAlerts resources
  if alerts.isEmpty then [{ type := "safe", message := AlertMsg.allSystemsNominal }]
  else alerts

/-- The core state of `HabitatDesigner`: the ordered module list and the
next-id counter (`this.modules`, `this.nextModuleId`, seeded to `1` in the
constructor).  Selection, drag state and DOM handles are presentation. -/
structure DesignerState where
  modules : List PlacedModule
  nextModuleId : ℕ
deriving DecidableEq, Repr

/-- `HabitatDesigner.addModule(moduleType, x, y)`, with the canvas bounds
the source reads from `this.canvasRect` passed explicitly.  An unknown
type returns early; the drop point is centered and clamped at `0`; a
failed validation returns without mutating; a validation that raises (an
existing module of unknown type, `checkOverlaps = none`) propagates out of
the event handler before `nextModuleId++` or the push run, so the state is
likewise unchanged. -/
def addModule (s : DesignerState) (moduleType : String) (x y : ℚ)
    (canvasRect : Size) : DesignerState :=
  match getModuleType moduleType with
  | none => s
  | some moduleInfo =>
    let adjustedX := max 0 (x - moduleInfo.dimensions.width / 2)
    let adjustedY := max 0 (y - moduleInfo.dimensions.height / 2)
    match validateModulePlacement moduleType { x := adjustedX, y := adjustedY }
        s.modules canvasRect with
    | some VResult.ok =>
      { modules := s.modules ++
          [{ id := s.nextModuleId, type := moduleType, x := adjustedX, y := adjustedY }]
        nextModuleId := s.nextModuleId + 1 }
    | _ => s

/-- `HabitatDesigner.removeModule(moduleId)` on the module list:
`findIndex` by id then `splice(index, 1)`, i.e. the first module whose id
matches is dropped and the list is returned unchanged when `findIndex`
yields `-1`. -/
def removeModule (modules : List PlacedModule) (moduleId : ℕ) : List PlacedModule :=
  match modules with
  | [] => []
  | m :: rest => if m.id = moduleId then rest else m :: removeModule rest moduleId

/-- `HabitatDesigner.clearHabitat`: returns immediately when the list is
already empty, otherwise clears the module list only if the user confirms
the dialog.  `nextModuleId` is not touched. -/
def clearHabitat (s : DesignerState) (confirmClear : Bool) : DesignerState :=
  if s.modules.length = 0 then s
  else if confirmClear then { s with modules := [] }
  else s

/-- The parsed persisted document.  `modules` is `none` when the document
has no usable `modules` array (the field is absent or not a list), in
which case `habitatData.modules.forEach` raises the TypeError caught by
`loadHabitat`.  The `timestamp` and `version` fields the source also
stores are never read back. -/
structure SavedDoc where
  modules : Option (List PlacedModule)
deriving DecidableEq, Repr

/-- `HabitatDesigner.saveHabitat`: persists the current module list. -/
def saveHabitat (s : DesignerState) : SavedDoc :=
  { modules := some s.modules }

/-- `HabitatDesigner.loadHabitat`, with the localStorage read and the user
confirmation of the inner `clearHabitat` dialog as parameters.  `savedData
= none` is the no-saved-design early return; `some (Except.error ())`
models a document `JSON.parse` rejects, whose exception is caught before
any mutation; on a parsed document the source first runs `clearHabitat()`,
then iterates `habitatData.modules` (a missing or non-list field raises
there, caught after the clear already mutated the state), pushes each
entry, and reseeds `nextModuleId` to `max(ids) + 1` when the resulting
list is nonempty. -/
def loadHabitat (s : DesignerState) (savedData : Option (Except Unit SavedDoc))
    (confirmClear : Bool) : DesignerState :=
  match savedData with
  | none => s
  | some (Except.error _) => s
  | some (Except.ok habitatData) =>
    let cleared := clearHabitat s confirmClear
    match habitatData.modules with
    | none => cleared
    | some ms =>
      let loaded : DesignerState :=
        { modules := cleared.modules ++ ms, nextModuleId := cleared.nextModuleId }
      if loaded.modules.length > 0 then
        { loaded with
          nextModuleId := (loaded.modules.map (fun m => m.id)).foldl Nat.max 0 + 1 }
      else loaded

/-- One user-level operation on the designer state, used to quantify over
operation sequences: a drop (`addModule`), a removal (`removeModule`) and
a clear (`clearHabitat` with its confirmation outcome). -/
inductive HOp where
  | add (moduleType : String) (x y : ℚ) (canvasRect : Size)
  | remove (moduleId : ℕ)
  | clear (confirmClear : Bool)

/-- Applies one operation to the designer state. -/
def applyOp (s : DesignerState) : HOp → DesignerState
  | HOp.add t x y c => addModule s t x y c
  | HOp.remove i => { s with modules := removeModule s.modules i }
  | HOp.clear b => clearHabitat s b

/-- Runs a sequence of operations from a state. -/
def runOps (s : DesignerState) : List HOp → DesignerState
  | [] => s
  | op :: ops => runOps (applyOp s op) ops

/-- `Partition l₁ l₂ l` says the two disjoint sublists `l₁` and `l₂`
partition `l`: every element of `l` goes, in order, to exactly one side. -/
inductive Partition : List PlacedModule → List PlacedModule → List PlacedModule → Prop
  | nil : Partition [] [] []
  | left (m : PlacedModule) {l₁ l₂ l : List PlacedModule} :
      Partition l₁ l₂ l → Partition (m :: l₁) l₂ (m :: l)
  | right (m : PlacedModule) {l₁ l₂ l : List PlacedModule} :
      Partition l₁ l₂ l → Partition l₁ (m :: l₂) (m :: l)

/-- Componentwise sum of two accumulator records; the algebra in which the
additivity of `calculateTotalResources` is proved. -/
def accAdd (a b : ResAcc) : ResAcc :=
  { powerConsumption := a.powerConsumption + b.powerConsumption
    powerGeneration := a.powerGeneration + b.powerGeneration
    oxygenProduction := a.oxygenProduction + b.oxygenProduction
    oxygenConsumption := a.oxygenConsumption + b.oxygenConsumption
    crewCapacity := a.crewCapacity + b.crewCapacity
    area := a.area + b.area }

/-- The all-zero accumulator `calculateTotalResources` starts from. -/
def zeroAcc : ResAcc :=
  { powerConsumption := 0, powerGeneration := 0, oxygenProduction := 0
    oxygenConsumption := 0, crewCapacity := 0, area := 0 }

/-- Canvas bounds used by the concrete id-reuse scenario. -/
def cxCanvas : Size := { width := 1000, height := 1000 }

/-- Id-reuse scenario, step 1: three power modules dropped at distinct
spots of an empty habitat; they receive ids 1, 2, 3. -/
def cxS3 : DesignerState :=
  addModule (addModule (addModule { modules := [], nextModuleId := 1 }
    "power" 50 50 cxCanvas) "power" 250 50 cxCanvas) "power" 450 50 cxCanvas

/-- Id-reuse scenario, step 2: the module with id 3 is removed. -/
def cxS4 : DesignerState :=
  { cxS3 with modules := removeModule cxS3.modules 3 }

/-- Id-reuse scenario, step 3: the design is saved and then restored
(restore reseeds the next-id counter from the surviving ids). -/
def cxS5 : DesignerState :=
  loadHabitat cxS4 (some (Except.ok (saveHabitat cxS4))) true

/-- Id-reuse scenario, step 4: one more power module is dropped. -/
def cxS6 : DesignerState :=
  addModule cxS5 "power" 450 50 cxCanvas

/-- A snapshot on which no threshold or presence rule fires: comfortable
power and oxygen reserves, full crew capacity, airlock and power module
present. -/
def nominalSnapshot : Resources :=
  { powerBalance := 50, oxygenBalance := 10, crewCapacity := 4
    totalArea := 0, modules := 0, powerConsumption := 0, powerGeneration := 50
    oxygenProduction := 10, oxygenConsumption := 0
    moduleTypes := some ["airlock", "power"] }

/-- A nonnegative finite IEEE-754 binary64 value as a dyadic rational
`m * 2 ^ e`.  JavaScript numbers are binary64, so this is the number type
in which the source actually accumulates `totalArea`. -/
structure F64 where
  m : ℕ
  e : ℤ
deriving DecidableEq, Repr

/-- Bit length of a natural number, by fuel recursion; the fuel of 128
bits covers every value arising in the accumulations here. -/
def bitLenAux : ℕ → ℕ → ℕ
  | 0, _ => 0
  | fuel + 1, n => if n = 0 then 0 else bitLenAux fuel (n / 2) + 1

/-- Bit length of a natural number below `2 ^ 128`. -/
def bitLen (n : ℕ) : ℕ := bitLenAux 128 n

/-- Round-to-nearest, ties-to-even at 53 significant bits: the binary64
rounding applied to the exact sum `m * 2 ^ e` after an addition.  A value
already within 53 bits is exact; a carry out of the 53-bit range after
rounding shifts the exponent. -/
def roundTo53 (m : ℕ) (e : ℤ) : F64 :=
  if bitLen m ≤ 53 then { m := m, e := e }
  else
    let k := bitLen m - 53
    let q := m / 2 ^ k
    let r := m % 2 ^ k
    let half := 2 ^ (k - 1)
    let rounded := if r > half then q + 1
      else if r < half then q
      else if q % 2 = 0 then q else q + 1
    if rounded = 2 ^ 53 then { m := 2 ^ 52, e := e + k + 1 }
    else { m := rounded, e := e + k }

/-- IEEE-754 binary64 addition of nonnegative finite values: align both
summands to the smaller exponent, add exactly, round to 53 bits. -/
def f64Add (a b : F64) : F64 :=
  let e := min a.e b.e
  let bigA := a.m * 2 ^ (a.e - e).toNat
  let bigB := b.m * 2 ^ (b.e - e).toNat
  roundTo53 (bigA + bigB) e

/-- The binary64 value each catalog `area` literal denotes in JavaScript:
the exact dyadic nearest to 12, 16.8, 22.4, 14.3, 19.5, 6.4, 10 and 9.9
respectively (16.8, 22.4, 14.3, 6.4 and 9.9 are not representable and
carry the rounded 53-bit mantissa). -/
def areaF64 (moduleId : String) : F64 :=
  match moduleId with
  | "living-quarters" => { m := 12, e := 0 }
  | "laboratory" => { m := 4728779608739021, e := -48 }
  | "greenhouse" => { m := 3152519739159347, e := -47 }
  | "workshop" => { m := 4025092166962381, e := -48 }
  | "recreation" => { m := 39, e := -1 }
  | "airlock" => { m := 3602879701896397, e := -49 }
  | "power" => { m := 10, e := 0 }
  | "storage" => { m := 5573204538870989, e := -49 }
  | _ => { m := 0, e := 0 }

/-- The `totalArea` accumulation of `calculateTotalResources` carried out
in the binary64 arithmetic of the source: starting from `0`, each module
whose type resolves performs `totalArea += moduleType.area || 0` as a
double addition; unknown types contribute nothing. -/
def totalAreaF64 (modules : List PlacedModule) : F64 :=
  modules.foldl
    (fun totalArea mo =>
      match getModuleType mo.type with
      | none => totalArea
      | some _ => f64Add totalArea (areaF64 mo.type))
    { m := 0, e := 0 }

/-- Evaluation lemma: catalog lookup of the power module. -/
theorem getModuleType_power : getModuleType "power" = some powerProfile := rfl

/-- Evaluation lemma: catalog lookup of living quarters. -/
theorem getModuleType_living_quarters :
    getModuleType "living-quarters" = some livingQuartersProfile := rfl

/-- Evaluation lemma: catalog lookup of the airlock. -/
theorem getModuleType_airlock : getModuleType "airlock" = some airlockProfile := rfl

/-- Evaluation lemma: the id "mystery" is absent from the catalog. -/
theorem getModuleType_mystery : getModuleType "mystery" = none := rfl

/-- C1: the claim says `validateModulePlacement` always returns a typed
result and never raises, in particular when some module of
`existingModules` has a typeId absent from the catalog.  The code
contradicts this: with the known candidate type "power" at an in-bounds
position and a single existing module of the unknown type "mystery", the
overlap loop dereferences the null catalog lookup and raises a TypeError
(modeled as `none`) instead of returning a result. -/
theorem C1_validate_faults_on_unknown_existing_type :
    validateModulePlacement "power" { x := 0, y := 0 }
      [{ id := 1, type := "mystery", x := 50, y := 50 }]
      { width := 1000, height := 1000 } = none := by
  norm_num [validateModulePlacement, getModuleType_power, getModuleType_mystery,
    checkOverlaps, powerProfile]

/-- C3: the claim says a malformed persisted document makes restore abort
before mutating the live state, leaving the prior module list intact.  The
code contradicts this: on a document that parses but has no `modules`
list, `loadHabitat` has already run `clearHabitat` (here confirmed) before
the `forEach` raises, so a prior state holding one module ends with an
empty module list. -/
theorem C3_load_clears_before_detecting_malformed_doc :
    (loadHabitat { modules := [{ id := 1, type := "power", x := 0, y := 0 }], nextModuleId := 2 }
        (some (Except.ok { modules := none })) true).modules = [] ∧
    ({ modules := [{ id := 1, type := "power", x := 0, y := 0 }], nextModuleId := 2 } :
        DesignerState).modules ≠ [] := by
  exact ⟨rfl, by simp⟩

/-- C7: the snapshot of the empty habitat yields a danger alert for no
power generation, warning alerts for no airlock and for no living
quarters, and no nominal entry. -/
theorem C7_empty_habitat_alerts :
    { type := "danger", message := AlertMsg.noPowerModules } ∈
        getSafetyAlerts (updateResources []) ∧
    { type := "warning", message := AlertMsg.noAirlock } ∈
        getSafetyAlerts (updateResources []) ∧
    { type := "warning", message := AlertMsg.noLivingQuarters } ∈
        getSafetyAlerts (updateResources []) ∧
    ∀ a ∈ getSafetyAlerts (updateResources []), a.message ≠ AlertMsg.allSystemsNominal := by
  refine ⟨?_, ?_, ?_, ?_⟩
  all_goals norm_num [getSafetyAlerts, firedAlerts, updateResources,
    calculateTotalResources, List.foldl]
  all_goals decide

/-- C2 counterexample: the claim says unknown typeIds are excluded from
the snapshot set used by the presence checks, but
`ResourceCalculator.updateResources` attaches `modules.map(m => m.type)`
unfiltered, so the unknown typeId "mystery" appears in the snapshot of a
list holding only that module. -/
theorem C2_counterexample_unknown_type_in_snapshot :
    getModuleType "mystery" = none ∧
    (updateResources [{ id := 1, type := "mystery", x := 0, y := 0 }]).moduleTypes
      = some ["mystery"] := by
  exact ⟨rfl, rfl⟩

/-- C2 as amended: a module with an unknown typeId contributes zero to the
six accumulated numeric fields of the aggregate (and one to the module
count), and although its typeId is kept in the attached `moduleTypes`
list, the presence checks for "airlock" and "power" are unaffected by
it. -/
theorem C2_unknown_contributes_zero (pre post : List PlacedModule) (u : PlacedModule)
    (hu : getModuleType u.type = none) :
    (calculateTotalResources (pre ++ u :: post)).powerConsumption
        = (calculateTotalResources (pre ++ post)).powerConsumption ∧
    (calculateTotalResources (pre ++ u :: post)).powerGeneration
        = (calculateTotalResources (pre ++ post)).powerGeneration ∧
    (calculateTotalResources (pre ++ u :: post)).oxygenProduction
        = (calculateTotalResources (pre ++ post)).oxygenProduction ∧
    (calculateTotalResources (pre ++ u :: post)).oxygenConsumption
        = (calculateTotalResources (pre ++ post)).oxygenConsumption ∧
    (calculateTotalResources (pre ++ u :: post)).crewCapacity
        = (calculateTotalResources (pre ++ post)).crewCapacity ∧
    (calculateTotalResources (pre ++ u :: post)).totalArea
        = (calculateTotalResources (pre ++ post)).totalArea ∧
    (calculateTotalResources (pre ++ u :: post)).modules
        = (calculateTotalResources (pre ++ post)).modules + 1 ∧
    (updateResources (pre ++ u :: post)).moduleTypes
        = some ((pre ++ u :: post).map (fun m => m.type)) ∧
    ((updateResources (pre ++ u :: post)).moduleTypes.getD []).contains "airlock"
        = ((updateResources (pre ++ post)).moduleTypes.getD []).contains "airlock" ∧
    ((updateResources (pre ++ u :: post)).moduleTypes.getD []).contains "power"
        = ((updateResources (pre ++ post)).moduleTypes.getD []).contains "power" := by
  have hstep : ∀ acc : ResAcc, resStep acc u = acc := by
    intro acc
    simp [resStep, hu]
  have hfold : ∀ acc : ResAcc,
      (pre ++ u :: post).foldl resStep acc = (pre ++ post).foldl resStep acc := by
    intro acc
    simp [List.foldl_append, List.foldl_cons, hstep]
  have hairlock : u.type ≠ "airlock" := by
    intro h
    rw [h, getModuleType_airlock] at hu
    exact Option.noConfusion hu
  have hpower : u.type ≠ "power" := by
    intro h
    rw [h, getModuleType_power] at hu
    exact Option.noConfusion hu
  refine ⟨?_, ?_, ?_, ?_, ?_, ?_, ?_, rfl, ?_, ?_⟩
  · simp [calculateTotalResources, hfold]
  · simp [calculateTotalResources, hfold]
  · simp [calculateTotalResources, hfold]
  · simp [calculateTotalResources, hfold]
  · simp [calculateTotalResources, hfold]
  · simp [calculateTotalResources, hfold]
  · simp [calculateTotalResources]
    omega
  · simp [updateResources, List.contains, Ne.symm hairlock]
  · simp [updateResources, List.contains, Ne.symm hpower]

/-- Evaluation lemma: dropping a power module at (50, 50) on the empty
habitat places it at (0, 0) with id 1. -/
theorem cxStep1 : addModule { modules := [], nextModuleId := 1 } "power" 50 50 cxCanvas
    = { modules := [{ id := 1, type := "power", x := 0, y := 0 }], nextModuleId := 2 } := by
  norm_num [addModule, getModuleType_power, powerProfile, validateModulePlacement,
    checkOverlaps, max_def, cxCanvas]

/-- Evaluation lemma: dropping a second power module at (250, 50) places
it at (200, 0) with id 2. -/
theorem cxStep2 :
    addModule { modules := [{ id := 1, type := "power", x := 0, y := 0 }], nextModuleId := 2 }
      "power" 250 50 cxCanvas
    = { modules := [{ id := 1, type := "power", x := 0, y := 0 },
        { id := 2, type := "power", x := 200, y := 0 }], nextModuleId := 3 } := by
  norm_num [addModule, getModuleType_power, powerProfile, validateModulePlacement,
    checkOverlaps, modulesOverlap, max_def, cxCanvas]

/-- Evaluation lemma: dropping a power module at (450, 50) beside the
modules at (0, 0) and (200, 0) places it at (400, 0) with the next free
id. -/
theorem cxStep3 (n : ℕ) :
    addModule { modules := [{ id := 1, type := "power", x := 0, y := 0 },
        { id := 2, type := "power", x := 200, y := 0 }], nextModuleId := n }
      "power" 450 50 cxCanvas
    = { modules := [{ id := 1, type := "power", x := 0, y := 0 },
        { id := 2, type := "power", x := 200, y := 0 },
        { id := n, type := "power", x := 400, y := 0 }], nextModuleId := n + 1 } := by
  norm_num [addModule, getModuleType_power, powerProfile, validateModulePlacement,
    checkOverlaps, modulesOverlap, max_def, cxCanvas]

/-- C4 counterexample: the claim says that in every state reachable by
add, remove, clear and restore, the next-id counter strictly exceeds every
id ever held, so a removed id is never reassigned.  The code contradicts
this: after placing ids 1, 2, 3, removing id 3, saving, and restoring,
`loadHabitat` reseeds the counter to `max(1, 2) + 1 = 3`, and the next
placement receives id 3 again. -/
theorem C4_counterexample_restore_reuses_removed_id :
    cxS3.modules.map (fun m => m.id) = [1, 2, 3] ∧
    cxS4.modules.map (fun m => m.id) = [1, 2] ∧
    cxS5.modules.map (fun m => m.id) = [1, 2] ∧
    cxS5.nextModuleId = 3 ∧
    cxS6.modules.map (fun m => m.id) = [1, 2, 3] := by
  have hs3 : cxS3 = { modules := [{ id := 1, type := "power", x := 0, y := 0 },
      { id := 2, type := "power", x := 200, y := 0 },
      { id := 3, type := "power", x := 400, y := 0 }], nextModuleId := 4 } := by
    rw [cxS3, cxStep1, cxStep2, cxStep3]
  have hs4 : cxS4 = { modules := [{ id := 1, type := "power", x := 0, y := 0 },
      { id := 2, type := "power", x := 200, y := 0 }], nextModuleId := 4 } := by
    rw [cxS4, hs3]
    rfl
  have hs5 : cxS5 = { modules := [{ id := 1, type := "power", x := 0, y := 0 },
      { id := 2, type := "power", x := 200, y := 0 }], nextModuleId := 3 } := by
    rw [cxS5, hs4]
    rfl
  have hs6 : cxS6 = { modules := [{ id := 1, type := "power", x := 0, y := 0 },
      { id := 2, type := "power", x := 200, y := 0 },
      { id := 3, type := "power", x := 400, y := 0 }], nextModuleId := 4 } := by
    rw [cxS6, hs5, cxStep3]
  rw [hs3, hs4, hs5, hs6]
  exact ⟨rfl, rfl, rfl, rfl, rfl⟩

/-- Every module surviving `removeModule` was already in the list. -/
theorem mem_of_mem_removeModule {x : PlacedModule} {l : List PlacedModule} {i : ℕ}
    (h : x ∈ removeModule l i) : x ∈ l := by
  induction l with
  | nil => exact absurd h (by simp [removeModule])
  | cons m rest ih =>
    rw [removeModule] at h
    by_cases hm : m.id = i
    · rw [if_pos hm] at h
      exact List.mem_cons_of_mem m h
    · rw [if_neg hm] at h
      rcases List.mem_cons.mp h with h | h
      · exact h ▸ List.mem_cons_self m rest
      · exact List.mem_cons_of_mem m (ih h)

/-- `addModule` preserves the id bound and a module it adds carries the
current counter value. -/
theorem addModule_cases (s : DesignerState) (t : String) (x y : ℚ) (c : Size) :
    addModule s t x y c = s ∨
    ∃ px py, addModule s t x y c =
      { modules := s.modules ++ [{ id := s.nextModuleId, type := t, x := px, y := py }]
        nextModuleId := s.nextModuleId + 1 } := by
  cases hg : getModuleType t with
  | none =>
    refine Or.inl ?_
    simp [addModule, hg]
  | some info =>
    cases hv : validateModulePlacement t
        { x := max 0 (x - info.dimensions.width / 2), y := max 0 (y - info.dimensions.height / 2) }
        s.modules c with
    | none =>
      refine Or.inl ?_
      simp [addModule, hg, hv]
    | some r =>
      cases r with
      | ok =>
        refine Or.inr ⟨max 0 (x - info.dimensions.width / 2),
          max 0 (y - info.dimensions.height / 2), ?_⟩
        simp [addModule, hg, hv]
      | invalid reason =>
        refine Or.inl ?_
        simp [addModule, hg, hv]

/-- One designer operation never lowers the next-id counter and keeps
every held id strictly below it. -/
theorem applyOp_invariant (s : DesignerState)
    (hinv : ∀ mo ∈ s.modules, mo.id < s.nextModuleId) (op : HOp) :
    (∀ mo ∈ (applyOp s op).modules, mo.id < (applyOp s op).nextModuleId) ∧
    s.nextModuleId ≤ (applyOp s op).nextModuleId := by
  cases op with
  | add t x y c =>
    rcases addModule_cases s t x y c with h | ⟨px, py, h⟩
    · rw [applyOp, h]
      exact ⟨hinv, le_refl _⟩
    · rw [applyOp, h]
      refine ⟨?_, Nat.le_succ _⟩
      intro mo hmo
      rcases List.mem_append.mp hmo with hmo | hmo
      · exact Nat.lt_succ_of_lt (hinv mo hmo)
      · rcases List.mem_singleton.mp hmo with rfl
        exact Nat.lt_succ_self _
  | remove i =>
    refine ⟨?_, le_refl _⟩
    intro mo hmo
    exact hinv mo (mem_of_mem_removeModule hmo)
  | clear b =>
    rw [applyOp, clearHabitat]
    split_ifs with h1 h2
    · exact ⟨hinv, le_refl _⟩
    · exact ⟨by intro mo hmo; exact absurd hmo (by simp), le_refl _⟩
    · exact ⟨hinv, le_refl _⟩

/-- Running an operation sequence preserves the id invariant and never
lowers the counter. -/
theorem runOps_invariant (ops : List HOp) :
    ∀ s : DesignerState, (∀ mo ∈ s.modules, mo.id < s.nextModuleId) →
    (∀ mo ∈ (runOps s ops).modules, mo.id < (runOps s ops).nextModuleId) ∧
    s.nextModuleId ≤ (runOps s ops).nextModuleId := by
  induction ops with
  | nil => exact fun s hinv => ⟨hinv, le_refl _⟩
  | cons op rest ih =>
    intro s hinv
    have hstep := applyOp_invariant s hinv op
    have hrest := ih (applyOp s op) hstep.1
    exact ⟨hrest.1, le_trans hstep.2 hrest.2⟩

/-- Running an appended sequence is running the two parts in order. -/
theorem runOps_append (ops₁ ops₂ : List HOp) (s : DesignerState) :
    runOps s (ops₁ ++ ops₂) = runOps (runOps s ops₁) ops₂ := by
  induction ops₁ generalizing s with
  | nil => rfl
  | cons op rest ih => rw [List.cons_append, runOps, runOps, ih]

/-- A module that `addModule` adds (it is in the result but was not
present before) carries exactly the current counter value as id. -/
theorem addModule_fresh_id (s : DesignerState) (t : String) (x y : ℚ) (c : Size)
    (m : PlacedModule) (hnew : m ∈ (addModule s t x y c).modules)
    (hfresh : m ∉ s.modules) : m.id = s.nextModuleId := by
  rcases addModule_cases s t x y c with h | ⟨px, py, h⟩
  · rw [h] at hnew
    exact absurd hnew hfresh
  · rw [h] at hnew
    rcases List.mem_append.mp hnew with hmo | hmo
    · exact absurd hmo hfresh
    · rcases List.mem_singleton.mp hmo with rfl
      rfl

/-- C4 as amended: for sequences of add, remove and clear operations (no
restore) from the initial designer state, the next-id counter strictly
exceeds every currently held id, and a module newly placed after further
operations never reuses an id held at an earlier point of the lineage.
Restore is excluded: it reseeds the counter from the surviving ids, which
the counterexample shows can reassign a removed id. -/
theorem C4_no_id_reuse_without_restore (ops₁ ops₂ : List HOp) (i : ℕ) (t : String)
    (x y : ℚ) (c : Size) (m : PlacedModule)
    (hheld : i ∈ (runOps { modules := [], nextModuleId := 1 } ops₁).modules.map (fun mo => mo.id))
    (hnew : m ∈ (addModule (runOps { modules := [], nextModuleId := 1 } (ops₁ ++ ops₂))
      t x y c).modules)
    (hfresh : m ∉ (runOps { modules := [], nextModuleId := 1 } (ops₁ ++ ops₂)).modules) :
    (∀ mo ∈ (runOps { modules := [], nextModuleId := 1 } (ops₁ ++ ops₂)).modules,
      mo.id < (runOps { modules := [], nextModuleId := 1 } (ops₁ ++ ops₂)).nextModuleId) ∧
    m.id ≠ i := by
  have hinv0 : ∀ mo ∈ ({ modules := [], nextModuleId := 1 } : DesignerState).modules,
      mo.id < ({ modules := [], nextModuleId := 1 } : DesignerState).nextModuleId := by
    intro mo hmo
    exact absurd hmo (by simp)
  have h1 := runOps_invariant ops₁ _ hinv0
  have h12 := runOps_invariant (ops₁ ++ ops₂) _ hinv0
  rcases List.mem_map.mp hheld with ⟨mo, hmo, hid⟩
  have hi : i < (runOps { modules := [], nextModuleId := 1 } ops₁).nextModuleId :=
    hid ▸ h1.1 mo hmo
  have hle : (runOps { modules := [], nextModuleId := 1 } ops₁).nextModuleId ≤
      (runOps { modules := [], nextModuleId := 1 } (ops₁ ++ ops₂)).nextModuleId := by
    rw [runOps_append]
    exact (runOps_invariant ops₂ _ h1.1).2
  have hm := addModule_fresh_id _ t x y c m hnew hfresh
  exact ⟨h12.1, by omega⟩

/-- Evaluation lemma: dropping a power module at (50, 50) on an empty list
with counter 2 places it at (0, 0) with id 2. -/
theorem cxStep0 : addModule { modules := [], nextModuleId := 2 } "power" 50 50 cxCanvas
    = { modules := [{ id := 2, type := "power", x := 0, y := 0 }], nextModuleId := 3 } := by
  norm_num [addModule, getModuleType_power, powerProfile, validateModulePlacement,
    checkOverlaps, max_def, cxCanvas]

/-- Witness for the amended C4 theorem: after placing id 1 and removing
it, the next placement receives id 2, not the previously held id 1. -/
theorem C4_no_id_reuse_without_restore_witness :
    (∀ mo ∈ (runOps { modules := [], nextModuleId := 1 }
        ([HOp.add "power" 50 50 cxCanvas] ++ [HOp.remove 1])).modules,
      mo.id < (runOps { modules := [], nextModuleId := 1 }
        ([HOp.add "power" 50 50 cxCanvas] ++ [HOp.remove 1])).nextModuleId) ∧
    ({ id := 2, type := "power", x := 0, y := 0 } : PlacedModule).id ≠ 1 := by
  have e1 : runOps { modules := [], nextModuleId := 1 } [HOp.add "power" 50 50 cxCanvas]
      = { modules := [{ id := 1, type := "power", x := 0, y := 0 }], nextModuleId := 2 } := by
    simp [runOps, applyOp, cxStep1]
  have e12 : runOps { modules := [], nextModuleId := 1 }
      ([HOp.add "power" 50 50 cxCanvas] ++ [HOp.remove 1])
      = { modules := [], nextModuleId := 2 } := by
    simp [runOps, applyOp, cxStep1, removeModule]
  refine C4_no_id_reuse_without_restore [HOp.add "power" 50 50 cxCanvas] [HOp.remove 1]
    1 "power" 50 50 cxCanvas { id := 2, type := "power", x := 0, y := 0 } ?_ ?_ ?_
  · rw [e1]
    simp
  · rw [e12, cxStep0]
    simp
  · rw [e12]
    simp

/-- C10: `removeModule` leaves the list unchanged when no module has the
requested id, and otherwise removes exactly the (first) module holding the
id, preserving every other module and their relative order. -/
theorem C10_removeModule_frame (modules pre post : List PlacedModule) (m : PlacedModule)
    (mid : ℕ) :
    ((∀ x ∈ modules, x.id ≠ mid) → removeModule modules mid = modules) ∧
    (m.id = mid → (∀ x ∈ pre, x.id ≠ mid) →
      removeModule (pre ++ m :: post) mid = pre ++ post) := by
  constructor
  · intro h
    induction modules with
    | nil => rfl
    | cons a rest ih =>
      rw [removeModule, if_neg (h a (List.mem_cons_self a rest))]
      rw [ih fun x hx => h x (List.mem_cons_of_mem a hx)]
  · intro hm hpre
    induction pre with
    | nil =>
      rw [List.nil_append, removeModule, if_pos hm, List.nil_append]
    | cons a rest ih =>
      rw [List.cons_append, removeModule,
        if_neg (hpre a (List.mem_cons_self a rest)), List.cons_append]
      rw [ih fun x hx => hpre x (List.mem_cons_of_mem a hx)]

/-- Witness for C10: removing the absent id 7 is a no-op, and removing id
3 from a three-module list drops exactly the module with id 3. -/
theorem C10_removeModule_frame_witness :
    removeModule [{ id := 5, type := "power", x := 0, y := 0 }] 7
      = [{ id := 5, type := "power", x := 0, y := 0 }] ∧
    removeModule ([{ id := 1, type := "airlock", x := 0, y := 0 }] ++
        { id := 3, type := "power", x := 100, y := 0 } ::
        [{ id := 4, type := "greenhouse", x := 300, y := 0 }]) 3
      = [{ id := 1, type := "airlock", x := 0, y := 0 }] ++
        [{ id := 4, type := "greenhouse", x := 300, y := 0 }] := by
  constructor
  · exact (C10_removeModule_frame [{ id := 5, type := "power", x := 0, y := 0 }]
      [] [] { id := 0, type := "", x := 0, y := 0 } 7).1 (by simp)
  · exact (C10_removeModule_frame []
      [{ id := 1, type := "airlock", x := 0, y := 0 }]
      [{ id := 4, type := "greenhouse", x := 300, y := 0 }]
      { id := 3, type := "power", x := 100, y := 0 } 3).2 rfl (by simp)

/-- The overlap loop accepts when every existing module resolves in the
catalog and none of their rectangles overlaps the candidate. -/
theorem checkOverlaps_ok (p : ModuleProfile) (pos : Position) (existing : List PlacedModule)
    (h : ∀ em ∈ existing, ∃ q, getModuleType em.type = some q ∧
      modulesOverlap
        { x := pos.x, y := pos.y, width := p.dimensions.width, height := p.dimensions.height }
        { x := em.x, y := em.y, width := q.dimensions.width, height := q.dimensions.height }
        = false) :
    checkOverlaps p pos existing = some VResult.ok := by
  induction existing with
  | nil => rfl
  | cons em rest ih =>
    obtain ⟨q, hq, hov⟩ := h em (List.mem_cons_self em rest)
    have hrest := ih fun e he => h e (List.mem_cons_of_mem em he)
    simp [checkOverlaps, hq, hov, hrest]

/-- C5: for a known module type at a nonnegative position with known,
non-overlapping existing modules, a placement flush with the surface edge
(`x + width = bounds.width`, likewise in y) validates as valid, and one
unit past the edge validates as invalid with the out-of-bounds reason. -/
theorem C5_bounds_exactness (t : String) (p : ModuleProfile) (pos : Position)
    (existing : List PlacedModule) (c : Size)
    (ht : getModuleType t = some p) (hx : 0 ≤ pos.x) (hy : 0 ≤ pos.y) :
    ((∀ em ∈ existing, ∃ q, getModuleType em.type = some q ∧
        modulesOverlap
          { x := pos.x, y := pos.y, width := p.dimensions.width, height := p.dimensions.height }
          { x := em.x, y := em.y, width := q.dimensions.width, height := q.dimensions.height }
          = false) →
      pos.x + p.dimensions.width = c.width → pos.y + p.dimensions.height = c.height →
      validateModulePlacement t pos existing c = some VResult.ok) ∧
    (pos.x + p.dimensions.width = c.width + 1 →
      validateModulePlacement t pos existing c
        = some (VResult.invalid "Module extends beyond habitat boundary")) := by
  constructor
  · intro hno hfx hfy
    have hcond : ¬(pos.x < 0 ∨ pos.y < 0 ∨
        pos.x + p.dimensions.width > c.width ∨ pos.y + p.dimensions.height > c.height) := by
      push_neg
      exact ⟨hx, hy, le_of_eq hfx, le_of_eq hfy⟩
    simp only [validateModulePlacement, ht, if_neg hcond]
    exact checkOverlaps_ok p pos existing hno
  · intro hover
    have hcond : pos.x < 0 ∨ pos.y < 0 ∨
        pos.x + p.dimensions.width > c.width ∨ pos.y + p.dimensions.height > c.height := by
      refine Or.inr (Or.inr (Or.inl ?_))
      rw [hover]
      linarith
    simp only [validateModulePlacement, ht, if_pos hcond]

/-- Witness for C5: a power module (width 100) at x = 900 on a 1000-wide
canvas is flush and valid; at x = 901 it is invalid as out of bounds. -/
theorem C5_bounds_exactness_witness :
    validateModulePlacement "power" { x := 900, y := 900 } []
        { width := 1000, height := 1000 } = some VResult.ok ∧
    validateModulePlacement "power" { x := 901, y := 900 } []
        { width := 1000, height := 1000 }
      = some (VResult.invalid "Module extends beyond habitat boundary") := by
  constructor
  · exact (C5_bounds_exactness "power" powerProfile { x := 900, y := 900 } []
      { width := 1000, height := 1000 } rfl (by norm_num) (by norm_num)).1
      (by simp) (by norm_num [powerProfile]) (by norm_num [powerProfile])
  · exact (C5_bounds_exactness "power" powerProfile { x := 901, y := 900 } []
      { width := 1000, height := 1000 } rfl (by norm_num) (by norm_num)).2
      (by norm_num [powerProfile])

/-- C6: rectangles touching edge to edge (equality on either axis) do not
overlap, in either argument order; consequently a known in-bounds module
whose left edge equals the right edge of the single existing module
validates as valid. -/
theorem C6_touching_edges_no_overlap (r₁ r₂ : Rect) (t : String) (p : ModuleProfile)
    (pos : Position) (em : PlacedModule) (q : ModuleProfile) (c : Size) :
    ((r₁.x + r₁.width = r₂.x ∨ r₂.x + r₂.width = r₁.x ∨
        r₁.y + r₁.height = r₂.y ∨ r₂.y + r₂.height = r₁.y) →
      modulesOverlap r₁ r₂ = false ∧ modulesOverlap r₂ r₁ = false) ∧
    (getModuleType t = some p → getModuleType em.type = some q →
      0 ≤ pos.x → 0 ≤ pos.y → pos.x + p.dimensions.width ≤ c.width →
      pos.y + p.dimensions.height ≤ c.height →
      pos.x + p.dimensions.width = em.x →
      validateModulePlacement t pos [em] c = some VResult.ok) := by
  constructor
  · intro h
    constructor
    · simp only [modulesOverlap, Bool.not_eq_false', Bool.or_eq_true, decide_eq_true_eq]
      rcases h with h | h | h | h <;> exact by have := le_of_eq h; tauto
    · simp only [modulesOverlap, Bool.not_eq_false', Bool.or_eq_true, decide_eq_true_eq]
      rcases h with h | h | h | h <;> exact by have := le_of_eq h; tauto
  · intro ht hq hx hy hbx hby htouch
    have hov : modulesOverlap
        { x := pos.x, y := pos.y, width := p.dimensions.width, height := p.dimensions.height }
        { x := em.x, y := em.y, width := q.dimensions.width, height := q.dimensions.height }
        = false := by
      simp only [modulesOverlap, Bool.not_eq_false', Bool.or_eq_true, decide_eq_true_eq]
      have := le_of_eq htouch
      tauto
    have hcond : ¬(pos.x < 0 ∨ pos.y < 0 ∨
        pos.x + p.dimensions.width > c.width ∨ pos.y + p.dimensions.height > c.height) := by
      push_neg
      exact ⟨hx, hy, hbx, hby⟩
    simp only [validateModulePlacement, ht, if_neg hcond]
    refine checkOverlaps_ok p pos [em] ?_
    intro e he
    rcases List.mem_singleton.mp he with rfl
    exact ⟨q, hq, hov⟩

/-- Witness for C6: two 100-wide rectangles at x = 0 and x = 100 touch and
do not overlap, and a power module dropped flush against an existing power
module at x = 100 validates as valid. -/
theorem C6_touching_edges_no_overlap_witness :
    (modulesOverlap { x := 0, y := 0, width := 100, height := 100 }
        { x := 100, y := 0, width := 100, height := 100 } = false ∧
      modulesOverlap { x := 100, y := 0, width := 100, height := 100 }
        { x := 0, y := 0, width := 100, height := 100 } = false) ∧
    validateModulePlacement "power" { x := 0, y := 0 }
      [{ id := 1, type := "power", x := 100, y := 0 }]
      { width := 1000, height := 1000 } = some VResult.ok := by
  constructor
  · exact (C6_touching_edges_no_overlap
      { x := 0, y := 0, width := 100, height := 100 }
      { x := 100, y := 0, width := 100, height := 100 }
      "power" powerProfile { x := 0, y := 0 }
      { id := 1, type := "power", x := 100, y := 0 } powerProfile
      { width := 1000, height := 1000 }).1 (Or.inl (by norm_num))
  · exact (C6_touching_edges_no_overlap
      { x := 0, y := 0, width := 100, height := 100 }
      { x := 100, y := 0, width := 100, height := 100 }
      "power" powerProfile { x := 0, y := 0 }
      { id := 1, type := "power", x := 100, y := 0 } powerProfile
      { width := 1000, height := 1000 }).2 rfl rfl (by norm_num) (by norm_num)
      (by norm_num [powerProfile]) (by norm_num [powerProfile]) (by norm_num [powerProfile])

/-- Adding the zero accumulator changes nothing. -/
theorem accAdd_zeroAcc (a : ResAcc) : accAdd a zeroAcc = a := by
  cases a
  simp [accAdd, zeroAcc]

/-- Componentwise accumulator addition is associative. -/
theorem accAdd_assoc (a b c : ResAcc) : accAdd (accAdd a b) c = accAdd a (accAdd b c) := by
  cases a
  cases b
  cases c
  simp only [accAdd, ResAcc.mk.injEq]
  exact ⟨by ring, by ring, by ring, by ring, by ring, by ring⟩

/-- Componentwise accumulator addition commutes under a common left
summand. -/
theorem accAdd_left_comm (a b c : ResAcc) :
    accAdd a (accAdd b c) = accAdd b (accAdd a c) := by
  cases a
  cases b
  cases c
  simp only [accAdd, ResAcc.mk.injEq]
  exact ⟨by ring, by ring, by ring, by ring, by ring, by ring⟩

/-- One accumulation step from an arbitrary accumulator is that step from
zero added to the accumulator. -/
theorem resStep_accAdd (m : PlacedModule) (a : ResAcc) :
    resStep a m = accAdd a (resStep zeroAcc m) := by
  cases hg : getModuleType m.type with
  | none => rw [resStep, hg, resStep, hg, accAdd_zeroAcc]
  | some mt =>
    cases a
    simp only [resStep, hg, accAdd, zeroAcc, ResAcc.mk.injEq]
    exact ⟨by ring, by ring, by ring, by ring, by ring, by ring⟩

/-- Folding the accumulation over a list from an arbitrary accumulator
splits off the accumulator. -/
theorem foldl_resStep_accAdd (l : List PlacedModule) :
    ∀ acc : ResAcc, l.foldl resStep acc = accAdd acc (l.foldl resStep zeroAcc) := by
  induction l with
  | nil =>
    intro acc
    simp [List.foldl, accAdd_zeroAcc]
  | cons m ms ih =>
    intro acc
    rw [List.foldl_cons, List.foldl_cons, ih (resStep acc m), ih (resStep zeroAcc m),
      resStep_accAdd m acc, accAdd_assoc]

/-- The accumulator totals of a partitioned list are the componentwise sum
of the totals of its two parts. -/
theorem partition_foldl {l₁ l₂ l : List PlacedModule} (h : Partition l₁ l₂ l) :
    l.foldl resStep zeroAcc = accAdd (l₁.foldl resStep zeroAcc) (l₂.foldl resStep zeroAcc) := by
  induction h with
  | nil => simp [List.foldl, accAdd_zeroAcc]
  | left m hp ih =>
    rw [List.foldl_cons, foldl_resStep_accAdd _ (resStep zeroAcc m), ih,
      List.foldl_cons, foldl_resStep_accAdd _ (resStep zeroAcc m), accAdd_assoc]
  | right m hp ih =>
    rw [List.foldl_cons, foldl_resStep_accAdd _ (resStep zeroAcc m), ih,
      List.foldl_cons, foldl_resStep_accAdd _ (resStep zeroAcc m), accAdd_left_comm]

/-- A partition splits the list length. -/
theorem partition_length {l₁ l₂ l : List PlacedModule} (h : Partition l₁ l₂ l) :
    l.length = l₁.length + l₂.length := by
  induction h with
  | nil => rfl
  | left m hp ih =>
    simp only [List.length_cons, ih]
    omega
  | right m hp ih =>
    simp only [List.length_cons, ih]
    omega

/-- C8 as amended: in exact rational arithmetic, each summed field of the
aggregate of the whole list, and the module count, is the sum of that
field over the aggregates of the two parts, for every partition of a
module list into two disjoint sublists.  In the binary64 arithmetic the
source actually uses this is still exact for the five integer-valued
fields and the count, but fails for `totalArea` by a final-place
rounding, as the binary64 counterexample shows. -/
theorem C8_aggregation_additivity (l₁ l₂ l : List PlacedModule) (h : Partition l₁ l₂ l) :
    (calculateTotalResources l).powerConsumption
        = (calculateTotalResources l₁).powerConsumption
          + (calculateTotalResources l₂).powerConsumption ∧
    (calculateTotalResources l).powerGeneration
        = (calculateTotalResources l₁).powerGeneration
          + (calculateTotalResources l₂).powerGeneration ∧
    (calculateTotalResources l).oxygenProduction
        = (calculateTotalResources l₁).oxygenProduction
          + (calculateTotalResources l₂).oxygenProduction ∧
    (calculateTotalResources l).oxygenConsumption
        = (calculateTotalResources l₁).oxygenConsumption
          + (calculateTotalResources l₂).oxygenConsumption ∧
    (calculateTotalResources l).crewCapacity
        = (calculateTotalResources l₁).crewCapacity
          + (calculateTotalResources l₂).crewCapacity ∧
    (calculateTotalResources l).totalArea
        = (calculateTotalResources l₁).totalArea + (calculateTotalResources l₂).totalArea ∧
    (calculateTotalResources l).modules
        = (calculateTotalResources l₁).modules + (calculateTotalResources l₂).modules := by
  have hf := partition_foldl h
  have hlen := partition_length h
  simp only [zeroAcc] at hf
  refine ⟨?_, ?_, ?_, ?_, ?_, ?_, ?_⟩ <;>
    simp [calculateTotalResources, hf, accAdd, hlen]

/-- Witness for C8: a living-quarters and a power module, partitioned one
to each side. -/
theorem C8_aggregation_additivity_witness :
    (calculateTotalResources [{ id := 1, type := "living-quarters", x := 10, y := 10 },
        { id := 2, type := "power", x := 300, y := 10 }]).powerConsumption
      = (calculateTotalResources [{ id := 1, type := "living-quarters", x := 10, y := 10 }]).powerConsumption
        + (calculateTotalResources [{ id := 2, type := "power", x := 300, y := 10 }]).powerConsumption ∧
    (calculateTotalResources [{ id := 1, type := "living-quarters", x := 10, y := 10 },
        { id := 2, type := "power", x := 300, y := 10 }]).powerGeneration
      = (calculateTotalResources [{ id := 1, type := "living-quarters", x := 10, y := 10 }]).powerGeneration
        + (calculateTotalResources [{ id := 2, type := "power", x := 300, y := 10 }]).powerGeneration ∧
    (calculateTotalResources [{ id := 1, type := "living-quarters", x := 10, y := 10 },
        { id := 2, type := "power", x := 300, y := 10 }]).oxygenProduction
      = (calculateTotalResources [{ id := 1, type := "living-quarters", x := 10, y := 10 }]).oxygenProduction
        + (calculateTotalResources [{ id := 2, type := "power", x := 300, y := 10 }]).oxygenProduction ∧
    (calculateTotalResources [{ id := 1, type := "living-quarters", x := 10, y := 10 },
        { id := 2, type := "power", x := 300, y := 10 }]).oxygenConsumption
      = (calculateTotalResources [{ id := 1, type := "living-quarters", x := 10, y := 10 }]).oxygenConsumption
        + (calculateTotalResources [{ id := 2, type := "power", x := 300, y := 10 }]).oxygenConsumption ∧
    (calculateTotalResources [{ id := 1, type := "living-quarters", x := 10, y := 10 },
        { id := 2, type := "power", x := 300, y := 10 }]).crewCapacity
      = (calculateTotalResources [{ id := 1, type := "living-quarters", x := 10, y := 10 }]).crewCapacity
        + (calculateTotalResources [{ id := 2, type := "power", x := 300, y := 10 }]).crewCapacity ∧
    (calculateTotalResources [{ id := 1, type := "living-quarters", x := 10, y := 10 },
        { id := 2, type := "power", x := 300, y := 10 }]).totalArea
      = (calculateTotalResources [{ id := 1, type := "living-quarters", x := 10, y := 10 }]).totalArea
        + (calculateTotalResources [{ id := 2, type := "power", x := 300, y := 10 }]).totalArea ∧
    (calculateTotalResources [{ id := 1, type := "living-quarters", x := 10, y := 10 },
        { id := 2, type := "power", x := 300, y := 10 }]).modules
      = (calculateTotalResources [{ id := 1, type := "living-quarters", x := 10, y := 10 }]).modules
        + (calculateTotalResources [{ id := 2, type := "power", x := 300, y := 10 }]).modules :=
  C8_aggregation_additivity _ _ _
    (Partition.left _ (Partition.right _ Partition.nil))

/-- The power clause of `firedAlerts` pushes nothing exactly when the
power balance is at least 10. -/
theorem powerClause_nil_iff (r : Resources) :
    (if r.powerBalance < 0 then
      [{ type := "danger", message := AlertMsg.powerDeficit (abs r.powerBalance) }]
     else if r.powerBalance < 10 then
      [{ type := "warning", message := AlertMsg.lowPowerReserve r.powerBalance }]
     else ([] : List Alert)) = [] ↔ 10 ≤ r.powerBalance := by
  split_ifs with h1 h2 <;> simp <;> linarith

/-- The oxygen clause of `firedAlerts` pushes nothing exactly when the
oxygen balance is at least 5. -/
theorem oxygenClause_nil_iff (r : Resources) :
    (if r.oxygenBalance < 0 then
      [{ type := "danger", message := AlertMsg.oxygenDeficit (abs r.oxygenBalance) }]
     else if r.oxygenBalance < 5 then
      [{ type := "warning", message := AlertMsg.lowOxygenReserve r.oxygenBalance }]
     else ([] : List Alert)) = [] ↔ 5 ≤ r.oxygenBalance := by
  split_ifs with h1 h2 <;> simp <;> linarith

/-- The crew clause of `firedAlerts` pushes nothing exactly when crew
capacity is at least 4. -/
theorem crewClause_nil_iff (r : Resources) :
    (if r.crewCapacity = 0 then
      [{ type := "warning", message := AlertMsg.noLivingQuarters }]
     else if r.crewCapacity < 4 then
      [{ type := "warning", message := AlertMsg.limitedCrewCapacity r.crewCapacity }]
     else ([] : List Alert)) = [] ↔ 4 ≤ r.crewCapacity := by
  split_ifs with h1 h2 <;> simp <;> linarith

/-- The airlock presence clause pushes nothing exactly when "airlock" is
present. -/
theorem airlockClause_nil_iff (r : Resources) :
    (if (r.moduleTypes.getD []).contains "airlock" then ([] : List Alert)
     else [{ type := "warning", message := AlertMsg.noAirlock }]) = [] ↔
      (r.moduleTypes.getD []).contains "airlock" = true := by
  split_ifs with h <;> simp_all

/-- The power presence clause pushes nothing exactly when "power" is
present. -/
theorem powerPresenceClause_nil_iff (r : Resources) :
    (if (r.moduleTypes.getD []).contains "power" then ([] : List Alert)
     else [{ type := "danger", message := AlertMsg.noPowerModules }]) = [] ↔
      (r.moduleTypes.getD []).contains "power" = true := by
  split_ifs with h <;> simp_all

/-- The rule clauses push nothing exactly when every threshold and
presence rule passes. -/
theorem firedAlerts_nil_iff (r : Resources) :
    firedAlerts r = [] ↔
      (10 ≤ r.powerBalance ∧ 5 ≤ r.oxygenBalance ∧ 4 ≤ r.crewCapacity ∧
        (r.moduleTypes.getD []).contains "airlock" = true ∧
        (r.moduleTypes.getD []).contains "power" = true) := by
  rw [firedAlerts]
  simp only [List.append_eq_nil]
  rw [powerClause_nil_iff, oxygenClause_nil_iff, crewClause_nil_iff,
    airlockClause_nil_iff, powerPresenceClause_nil_iff]
  tauto

/-- The nominal entry is never among the rule-pushed alerts. -/
theorem nominal_not_mem_firedAlerts (r : Resources) :
    ({ type := "safe", message := AlertMsg.allSystemsNominal } : Alert) ∉ firedAlerts r := by
  rw [firedAlerts]
  intro hmem
  simp only [List.mem_append] at hmem
  rcases hmem with ((((h | h) | h) | h) | h) <;> revert h <;> split_ifs <;> simp

/-- Any rule-pushed alert survives into the final alert list. -/
theorem mem_getSafetyAlerts_of_mem_fired {r : Resources} {a : Alert}
    (h : a ∈ firedAlerts r) : a ∈ getSafetyAlerts r := by
  have hne : ¬(firedAlerts r).isEmpty = true := by
    simp only [List.isEmpty_iff]
    exact List.ne_nil_of_mem h
  simp only [getSafetyAlerts]
  rw [if_neg hne]
  exact h

/-- C9 as amended: the alert list is never empty; it is exactly the single
nominal entry (whose severity tag in the source is "safe", not "info") iff
no threshold or presence rule fired; every applicable rule contributes its
alert independently, and no nominal entry appears once any rule fired. -/
theorem C9_alert_policy (r : Resources) :
    getSafetyAlerts r ≠ [] ∧
    (getSafetyAlerts r = [{ type := "safe", message := AlertMsg.allSystemsNominal }] ↔
      (10 ≤ r.powerBalance ∧ 5 ≤ r.oxygenBalance ∧ 4 ≤ r.crewCapacity ∧
        (r.moduleTypes.getD []).contains "airlock" = true ∧
        (r.moduleTypes.getD []).contains "power" = true)) ∧
    (r.powerBalance < 0 →
      { type := "danger", message := AlertMsg.powerDeficit (abs r.powerBalance) }
        ∈ getSafetyAlerts r) ∧
    (0 ≤ r.powerBalance → r.powerBalance < 10 →
      { type := "warning", message := AlertMsg.lowPowerReserve r.powerBalance }
        ∈ getSafetyAlerts r) ∧
    (r.oxygenBalance < 0 →
      { type := "danger", message := AlertMsg.oxygenDeficit (abs r.oxygenBalance) }
        ∈ getSafetyAlerts r) ∧
    (0 ≤ r.oxygenBalance → r.oxygenBalance < 5 →
      { type := "warning", message := AlertMsg.lowOxygenReserve r.oxygenBalance }
        ∈ getSafetyAlerts r) ∧
    (r.crewCapacity = 0 →
      { type := "warning", message := AlertMsg.noLivingQuarters } ∈ getSafetyAlerts r) ∧
    (r.crewCapacity ≠ 0 → r.crewCapacity < 4 →
      { type := "warning", message := AlertMsg.limitedCrewCapacity r.crewCapacity }
        ∈ getSafetyAlerts r) ∧
    ((r.moduleTypes.getD []).contains "airlock" = false →
      { type := "warning", message := AlertMsg.noAirlock } ∈ getSafetyAlerts r) ∧
    ((r.moduleTypes.getD []).contains "power" = false →
      { type := "danger", message := AlertMsg.noPowerModules } ∈ getSafetyAlerts r) ∧
    (¬(10 ≤ r.powerBalance ∧ 5 ≤ r.oxygenBalance ∧ 4 ≤ r.crewCapacity ∧
        (r.moduleTypes.getD []).contains "airlock" = true ∧
        (r.moduleTypes.getD []).contains "power" = true) →
      ({ type := "safe", message := AlertMsg.allSystemsNominal } : Alert)
        ∉ getSafetyAlerts r) := by
  refine ⟨?_, ⟨?_, ?_⟩, ?_, ?_, ?_, ?_, ?_, ?_, ?_, ?_, ?_⟩
  · simp only [getSafetyAlerts]
    split_ifs with h
    · simp
    · intro heq
      rw [List.isEmpty_iff] at h
      exact h heq
  · intro heq
    by_cases hemp : (firedAlerts r).isEmpty = true
    · rw [List.isEmpty_iff] at hemp
      exact (firedAlerts_nil_iff r).mp hemp
    · exfalso
      have hfa : getSafetyAlerts r = firedAlerts r := by
        simp only [getSafetyAlerts]
        rw [if_neg hemp]
      apply nominal_not_mem_firedAlerts r
      rw [← hfa, heq]
      exact List.mem_singleton_self _
  · intro hconds
    have hnil : firedAlerts r = [] := (firedAlerts_nil_iff r).mpr hconds
    simp only [getSafetyAlerts]
    rw [if_pos (by rw [List.isEmpty_iff]; exact hnil)]
  · intro h1
    refine mem_getSafetyAlerts_of_mem_fired ?_
    simp [firedAlerts, h1]
  · intro h1 h2
    refine mem_getSafetyAlerts_of_mem_fired ?_
    simp [firedAlerts, not_lt.mpr h1, h2]
  · intro h1
    refine mem_getSafetyAlerts_of_mem_fired ?_
    simp [firedAlerts, h1]
  · intro h1 h2
    refine mem_getSafetyAlerts_of_mem_fired ?_
    simp [firedAlerts, not_lt.mpr h1, h2]
  · intro h1
    refine mem_getSafetyAlerts_of_mem_fired ?_
    simp [firedAlerts, h1]
  · intro h1 h2
    refine mem_getSafetyAlerts_of_mem_fired ?_
    simp [firedAlerts, h1, h2]
  · intro h1
    refine mem_getSafetyAlerts_of_mem_fired ?_
    have h2 : "airlock" ∉ r.moduleTypes.getD [] := by simpa using h1
    simp [firedAlerts, h2]
  · intro h1
    refine mem_getSafetyAlerts_of_mem_fired ?_
    have h2 : "power" ∉ r.moduleTypes.getD [] := by simpa using h1
    simp [firedAlerts, h2]
  · intro hncond
    have hne : firedAlerts r ≠ [] := fun hnil => hncond ((firedAlerts_nil_iff r).mp hnil)
    have hfa : getSafetyAlerts r = firedAlerts r := by
      simp only [getSafetyAlerts]
      rw [if_neg (by rw [List.isEmpty_iff]; exact hne)]
    rw [hfa]
    exact nominal_not_mem_firedAlerts r

/-- C9 counterexample: the claim calls the nominal entry "info-severity",
but when no rule fires the source pushes `{ type: 'safe' }`: the alert
list for a fully nominal snapshot is the single "safe" entry and holds no
entry tagged "info". -/
theorem C9_counterexample_nominal_tag_is_safe :
    getSafetyAlerts nominalSnapshot
      = [{ type := "safe", message := AlertMsg.allSystemsNominal }] ∧
    ({ type := "info", message := AlertMsg.allSystemsNominal } : Alert)
      ∉ getSafetyAlerts nominalSnapshot := by
  have h : getSafetyAlerts nominalSnapshot
      = [{ type := "safe", message := AlertMsg.allSystemsNominal }] := by
    norm_num [getSafetyAlerts, firedAlerts, nominalSnapshot]
  refine ⟨h, ?_⟩
  rw [h]
  simp

/-- Witness for the amended C9 theorem, at the nominal snapshot: the alert
list is non-empty and collapses to the single safe-tagged nominal entry. -/
theorem C9_alert_policy_witness :
    getSafetyAlerts nominalSnapshot ≠ [] ∧
    getSafetyAlerts nominalSnapshot
      = [{ type := "safe", message := AlertMsg.allSystemsNominal }] :=
  ⟨(C9_alert_policy nominalSnapshot).1,
    (C9_alert_policy nominalSnapshot).2.1.mpr
      ⟨by norm_num [nominalSnapshot], by norm_num [nominalSnapshot],
        by norm_num [nominalSnapshot], rfl, rfl⟩⟩

/-- Witness for the amended C2 theorem: one unknown "mystery" module
alone aggregates exactly like the empty list on the six numeric fields,
counts as one module, and stays in the snapshot type list without
affecting the presence checks. -/
theorem C2_unknown_contributes_zero_witness :
    (calculateTotalResources [{ id := 1, type := "mystery", x := 0, y := 0 }]).powerConsumption
        = (calculateTotalResources []).powerConsumption ∧
    (calculateTotalResources [{ id := 1, type := "mystery", x := 0, y := 0 }]).powerGeneration
        = (calculateTotalResources []).powerGeneration ∧
    (calculateTotalResources [{ id := 1, type := "mystery", x := 0, y := 0 }]).oxygenProduction
        = (calculateTotalResources []).oxygenProduction ∧
    (calculateTotalResources [{ id := 1, type := "mystery", x := 0, y := 0 }]).oxygenConsumption
        = (calculateTotalResources []).oxygenConsumption ∧
    (calculateTotalResources [{ id := 1, type := "mystery", x := 0, y := 0 }]).crewCapacity
        = (calculateTotalResources []).crewCapacity ∧
    (calculateTotalResources [{ id := 1, type := "mystery", x := 0, y := 0 }]).totalArea
        = (calculateTotalResources []).totalArea ∧
    (calculateTotalResources [{ id := 1, type := "mystery", x := 0, y := 0 }]).modules
        = (calculateTotalResources []).modules + 1 ∧
    (updateResources [{ id := 1, type := "mystery", x := 0, y := 0 }]).moduleTypes
        = some (([{ id := 1, type := "mystery", x := 0, y := 0 }] : List PlacedModule).map
          (fun m => m.type)) ∧
    ((updateResources [{ id := 1, type := "mystery", x := 0, y := 0 }]).moduleTypes.getD
        []).contains "airlock"
      = ((updateResources []).moduleTypes.getD []).contains "airlock" ∧
    ((updateResources [{ id := 1, type := "mystery", x := 0, y := 0 }]).moduleTypes.getD
        []).contains "power"
      = ((updateResources []).moduleTypes.getD []).contains "power" :=
  C2_unknown_contributes_zero [] [] { id := 1, type := "mystery", x := 0, y := 0 } rfl

/-- C8 counterexample: the claim asserts bit-exact additivity of every
summed field, but the source accumulates `totalArea` in binary64, whose
addition is not associative.  For the list [laboratory, laboratory,
recreation] partitioned into [laboratory] and [laboratory, recreation],
the whole-list double accumulation yields the double 53.1
(7473160631667917 * 2 ^ (-47)) while the sum of the two parts yields
53.099999999999994 (7473160631667916 * 2 ^ (-47)): mantissas at the same
exponent differing by one ulp, so the claimed equality fails in the
program's arithmetic. -/
theorem C8_counterexample_float_totalArea_not_additive :
    Partition [{ id := 1, type := "laboratory", x := 0, y := 0 }]
      [{ id := 2, type := "laboratory", x := 0, y := 0 },
        { id := 3, type := "recreation", x := 0, y := 0 }]
      [{ id := 1, type := "laboratory", x := 0, y := 0 },
        { id := 2, type := "laboratory", x := 0, y := 0 },
        { id := 3, type := "recreation", x := 0, y := 0 }] ∧
    totalAreaF64 [{ id := 1, type := "laboratory", x := 0, y := 0 },
        { id := 2, type := "laboratory", x := 0, y := 0 },
        { id := 3, type := "recreation", x := 0, y := 0 }]
      = { m := 7473160631667917, e := -47 } ∧
    f64Add (totalAreaF64 [{ id := 1, type := "laboratory", x := 0, y := 0 }])
        (totalAreaF64 [{ id := 2, type := "laboratory", x := 0, y := 0 },
          { id := 3, type := "recreation", x := 0, y := 0 }])
      = { m := 7473160631667916, e := -47 } ∧
    totalAreaF64 [{ id := 1, type := "laboratory", x := 0, y := 0 },
        { id := 2, type := "laboratory", x := 0, y := 0 },
        { id := 3, type := "recreation", x := 0, y := 0 }]
      ≠ f64Add (totalAreaF64 [{ id := 1, type := "laboratory", x := 0, y := 0 }])
        (totalAreaF64 [{ id := 2, type := "laboratory", x := 0, y := 0 },
          { id := 3, type := "recreation", x := 0, y := 0 }]) :=
  ⟨Partition.left _ (Partition.right _ (Partition.right _ Partition.nil)),
    by decide, by decide, by decide⟩
